import Mathlib

/-!
Verification of the UCN-source cooling-loop model (`UCNsource.py`).

The program composes thermophysical property lookups from the external
libraries `hepak` (helium-4) and `he3pak` (helium-3), an empirical
boiling-curve interpolator, a multivariate root finder and an ODE
integrator into a steady-state solve plus a parameter sweep.  We embed
the program shallowly over `ℚ` (Python floats modelled as exact
rationals); every external collaborator becomes an explicit oracle
parameter:

* `HePak` / `He3Pak` bundle the property-library calls actually used,
  one field per distinct call shape (`hepak.HeCalc("H",0,"P",p,"T",t,1)`
  becomes `H_PT p t`, etc.);
* the boiling-curve spline becomes `boil : ℚ → ℚ → Option ℚ`, with
  `none` standing for the NaN returned outside the convex hull;
* `scipy.integrate.solve_ivp` becomes `ivp`, a functional taking the
  integrand, the endpoint and the initial value;
* `scipy.optimize.root` becomes `rootSolver`, returning a `RootResult`
  (success flag plus solution vector), mirroring `sol.success`/`sol.x`.

Console prints are modelled as a `List String` log where a claim
depends on them (`HEX1Temperature`, `calcUCNSource`); the number that
the source interpolates into the message `T_4He ... outside HEPAK
range!` is dropped from the modelled string.
-/

namespace UCNsource

/-- The helium-4 property oracle: one field per `hepak` call shape used by
the program.  `HeConst 3` is the minimum valid (lambda-point) temperature,
`HeConst 4` the specific gas constant. -/
structure HePak where
  HeConst : ℕ → ℚ
  /-- Models `hepak.HeCalc("H", 0, "P", p, "T", t, 1)`: enthalpy at pressure and temperature. -/
  H_PT : ℚ → ℚ → ℚ
  /-- Models `hepak.HeCalc("T", 0, "P", p, "SV", 0., 1)`: saturation temperature from pressure (vapor). -/
  T_P_SV : ℚ → ℚ
  /-- Models `hepak.HeCalc("T", 0, "P", p, "SL", 0., 1)`: saturation temperature from pressure (liquid). -/
  T_P_SL : ℚ → ℚ
  /-- Models `hepak.HeCalc(7, 0, "P", p, "SL", 0., 1)`: latent heat at saturation pressure. -/
  latent_P_SL : ℚ → ℚ
  /-- Models `hepak.HeCalc("H", 0, "T", t, "SV", 0., 1)`: saturated-vapor enthalpy at temperature. -/
  H_T_SV : ℚ → ℚ
  /-- Models `hepak.HeCalc("H", 0, "T", t, "SL", 0., 1)`: saturated-liquid enthalpy at temperature. -/
  H_T_SL : ℚ → ℚ
  /-- Models `hepak.HeCalc(7, 0, "T", t, "SL", 0., 1)`: latent heat at saturation temperature. -/
  latent_T_SL : ℚ → ℚ
  /-- Models `hepak.HeCalc("D", 0, "P", p, "SL", 0., 1)`: saturated-liquid density from pressure. -/
  D_P_SL : ℚ → ℚ
  /-- Models `hepak.HeCalc("P", 0, "T", t, "SL", 0., 1)`: saturation pressure from temperature. -/
  P_T_SL : ℚ → ℚ
  /-- Models `hepak.HeCalc("D", 0, "T", t, "SL", 0., 1)`: saturated-liquid density from temperature. -/
  D_T_SL : ℚ → ℚ
  /-- Models `hepak.HeCalc(38, 0, "P", p, "T", t, 1)`: He-II thermal conductivity function. -/
  k_PT : ℚ → ℚ → ℚ

/-- The helium-3 property oracle (`he3pak`). -/
structure He3Pak where
  /-- Models `he3pak.He3Density(pressure, temperature)`. -/
  He3Density : ℚ → ℚ → ℚ
  /-- Models `he3pak.He3Prop(index, density, temperature)` (index 6 = enthalpy). -/
  He3Prop : ℕ → ℚ → ℚ → ℚ
  /-- Models `he3pak.He3SaturatedVaporProp(index, temperature)`. -/
  He3SaturatedVaporProp : ℕ → ℚ → ℚ
  /-- Models `he3pak.He3SaturatedLiquidProp(index, temperature)` (6 = enthalpy, 13 = latent heat). -/
  He3SaturatedLiquidProp : ℕ → ℚ → ℚ
  /-- Models `he3pak.He3SaturatedTemperature(pressure)`. -/
  He3SaturatedTemperature : ℚ → ℚ

/-- Models `math.pi` as the exact rational value of the IEEE-754 double
`3.141592653589793`. -/
def mathPi : ℚ := 884279719003555 / 281474976710656

/-- Models `HeCoolingLoad(flow, pressure, inletTemperature, outletTemperature)`:
cooling power required to cool a He flow from inlet to outlet temperature
(lines 13-15).  The outlet temperature is clamped to the lambda point from
below before evaluation. -/
def HeCoolingLoad (he4 : HePak) (flow pressure inletTemperature outletTemperature : ℚ) : ℚ :=
  let outletTemperature := max (he4.HeConst 3) outletTemperature
  flow * (he4.H_PT pressure inletTemperature - he4.H_PT pressure outletTemperature)

/-- Models `HeCoolingFlow(heatLoad, pressure, inletTemperature, outletTemperature)`:
flow required to remove a heat load (lines 18-19). -/
def HeCoolingFlow (he4 : HePak) (heatLoad pressure inletTemperature outletTemperature : ℚ) : ℚ :=
  heatLoad / (he4.H_PT pressure outletTemperature - he4.H_PT pressure inletTemperature)

set_option linter.unusedVariables false in
/-- Models `He3CoolingLoad(flow, pressure, inletTemperature, outletTemperature)`
(lines 22-27).  Note: the returned difference subtracts `outletDensity`,
not `outletEnthalpy`, exactly as in the source (`outletEnthalpy` is
computed and then unused there too). -/
def He3CoolingLoad (he3 : He3Pak) (flow pressure inletTemperature outletTemperature : ℚ) : ℚ :=
  let inletDensity := he3.He3Density pressure inletTemperature
  let inletEnthalpy := he3.He3Prop 6 inletDensity inletTemperature
  let outletDensity := he3.He3Density pressure outletTemperature
  let outletEnthalpy := he3.He3Prop 6 outletDensity outletTemperature
  flow * (inletEnthalpy - outletDensity)

/-- Models `HeReservoirEvaporation(...)` (lines 30-34). -/
def HeReservoirEvaporation (he4 : HePak) (he3 : He3Pak)
    (He3Flow He3Pressure He3InletTemperature IPFlow IPPressure IPInletTemperature
     reservoirPressure : ℚ) : ℚ :=
  let reservoirTemperature := he4.T_P_SV reservoirPressure
  let He3HeatLoad := He3CoolingLoad he3 He3Flow He3Pressure He3InletTemperature reservoirTemperature
  let IPHeatLoad := HeCoolingLoad he4 IPFlow IPPressure IPInletTemperature reservoirTemperature
  (He3HeatLoad + IPHeatLoad) / he4.latent_P_SL reservoirPressure

/-- Models `shieldFlow(IPFlow, IPPressure, inletPressure)` (lines 38-43). -/
def shieldFlow (he4 : HePak) (IPFlow IPPressure inletPressure : ℚ) : ℚ × ℚ :=
  let IPHeatLoad_100 := HeCoolingLoad he4 IPFlow IPPressure 300 100
  let IPHeatLoad_20 := HeCoolingLoad he4 IPFlow IPPressure 100 20
  let flow_20 := HeCoolingFlow he4 (4.3 + 0.7 + 1.1 + 2 + 6.6 + IPHeatLoad_20) inletPressure 10 20
  let flow_100 := HeCoolingFlow he4 (49 + 8.9 + 5.7 + 14 + IPHeatLoad_100) inletPressure 30 100
  (flow_20, flow_100)

/-- Models `OneKPotTemperature(HeFlow, pumpingSpeed, pumpInletTemperature,
pumpingPressureDrop)` (lines 47-54).  The gas flow is clamped by
`max(0., min(HeFlow, 0.1))` before entering the ideal-gas relation. -/
def OneKPotTemperature (he4 : HePak)
    (HeFlow pumpingSpeed pumpInletTemperature pumpingPressureDrop : ℚ) : ℚ :=
  let HeFlow := max 0 (min HeFlow 0.1)
  let pumpInletPressure := HeFlow * he4.HeConst 4 * pumpInletTemperature / (pumpingSpeed / 3600)
  he4.T_P_SL (pumpInletPressure + pumpingPressureDrop)

/-- Models `OneKPotEvaporation(...)` (lines 57-65).  The last argument shadows the
function name `OneKPotTemperature`, as in the source. -/
def OneKPotEvaporation (he4 : HePak) (he3 : He3Pak)
    (He3Flow He3Pressure He3InletTemperature IPFlow IPPressure IPInletTemperature
     HeInletPressure HeInletTemperature OneKPotTemperature : ℚ) : ℚ :=
  let He3HeatLoad := He3CoolingLoad he3 He3Flow He3Pressure He3InletTemperature OneKPotTemperature
  let IPHeatLoad := HeCoolingLoad he4 IPFlow IPPressure IPInletTemperature OneKPotTemperature
  let HeInletEnthalpy := he4.H_PT HeInletPressure HeInletTemperature
  let HeVaporEnthalpy := he4.H_T_SV OneKPotTemperature
  let HeLiquidEnthalpy := he4.H_T_SL OneKPotTemperature
  let liquidFraction := (HeInletEnthalpy - HeVaporEnthalpy) / (HeLiquidEnthalpy - HeVaporEnthalpy)
  (He3HeatLoad + IPHeatLoad) / he4.latent_T_SL OneKPotTemperature / liquidFraction

/-- Models `He3Flow(inletTemperature, inletPressure, temperature, heatLoad)`
(lines 68-76). -/
def He3Flow (he3 : He3Pak) (inletTemperature inletPressure temperature heatLoad : ℚ) : ℚ :=
  let inletDensity := he3.He3Density inletPressure inletTemperature
  let inletEnthalpy := he3.He3Prop 6 inletDensity inletTemperature
  let vaporEnthalpy := he3.He3SaturatedVaporProp 6 temperature
  let liquidEnthalpy := he3.He3SaturatedLiquidProp 6 temperature
  let liquidFraction := (inletEnthalpy - vaporEnthalpy) / (liquidEnthalpy - vaporEnthalpy)
  let latentHeat := he3.He3SaturatedLiquidProp 13 temperature
  let liquidFlow := heatLoad / latentHeat
  liquidFlow / liquidFraction

/-- Models `He3Temperature(He3Flow, pumpingSpeed, pumpInletTemperature,
pumpingPressureDrop)` (lines 80-86). -/
def He3Temperature (he3 : He3Pak)
    (He3Flow pumpingSpeed pumpInletTemperature pumpingPressureDrop : ℚ) : ℚ :=
  let specificGasConstant : ℚ := 2756.7579
  let pumpInletPressure :=
    He3Flow * specificGasConstant * pumpInletTemperature / (pumpingSpeed / 3600)
  he3.He3SaturatedTemperature (pumpInletPressure + pumpingPressureDrop)

/-- Models `HEX1Temperature(T_He3, HEX1length, HEX1diameter, finHeight, finPitch,
heatLoad)` (lines 117-128).  The boiling-curve interpolator is the oracle
`boil`; `none` models the NaN it returns outside its valid domain.  The
second component is the list of warnings printed to the console. -/
def HEX1Temperature (boil : ℚ → ℚ → Option ℚ)
    (T_He3 HEX1length HEX1diameter finHeight finPitch heatLoad : ℚ) : ℚ × List String :=
  if heatLoad ≤ 0 then (T_He3, [])
  else
    let numberFins := HEX1length / finPitch
    let area := HEX1diameter * mathPi * HEX1length / 2
      + (HEX1diameter + 2 * finHeight) * mathPi * HEX1length / 2
      + ((HEX1diameter / 2 + finHeight) ^ 2 - (HEX1diameter / 2) ^ 2) * mathPi * numberFins * 2
    let q := heatLoad / area
    match boil T_He3 q with
    | none => (T_He3, ["He3 temperature outside valid boiling temperature range!"])
    | some dT => (T_He3 + dT, [])

/-- Models `He4Temperature(T_Cu, HEX1length, HEX1diameter, heatLoad)`
(lines 132-135). -/
def He4Temperature (T_Cu HEX1length HEX1diameter heatLoad : ℚ) : ℚ :=
  let A := HEX1diameter * mathPi * HEX1length
  let h := 900 * T_Cu ^ 3
  T_Cu + heatLoad / A / h

/-- The integrand `dTdx(x, T)` nested inside `HeIItemperature`
(lines 146-155), lifted to the top level with its captured variables
(`pressure`, `heatLoad`, `A`) as explicit arguments.  The console prints in
the two floored branches are dropped (they happen inside the integrator). -/
def dTdx (he4 : HePak) (pressure heatLoad A : ℚ) (_x T : ℚ) : ℚ :=
  if T < he4.HeConst 3 then 0
  else
    let k := he4.k_PT pressure T
    if k > 0 then (heatLoad / A) ^ 3 / k else 0

/-- Models `HeIItemperature(x, T_low, pressure, heatLoad, channelDiameter)`
(lines 140-158).  `ivp` is the `scipy.integrate.solve_ivp` oracle: it takes
the integrand, the right endpoint and the initial value and returns the
final value `result.y[0][-1]`. -/
def HeIItemperature (he4 : HePak) (ivp : (ℚ → ℚ → ℚ) → ℚ → ℚ → ℚ)
    (x T_low pressure heatLoad channelDiameter : ℚ) : ℚ :=
  if heatLoad = 0 then T_low
  else
    let A := mathPi * channelDiameter ^ 2 / 4
    ivp (dTdx he4 pressure heatLoad A) x T_low

/-- The named physical inputs of the parameter table (lines 217-242), value
fields only (the valid ranges and units are handled by the sweep model).
Field names transliterate the dictionary keys. -/
structure Parameters where
  /-- Models `"3He pumping speed"` -/
  He3PumpingSpeed : ℚ
  /-- Models `"He pumping speed"` -/
  HePumpingSpeed : ℚ
  /-- Models `"Pump inlet temperature"` -/
  PumpInletTemperature : ℚ
  /-- Models `"3He inlet pressure"` -/
  He3InletPressure : ℚ
  /-- Models `"Beam heating"` -/
  BeamHeating : ℚ
  /-- Models `"Static heat"` -/
  StaticHeat : ℚ
  /-- Models `"3He pressure drop"` -/
  He3PressureDrop : ℚ
  /-- Models `"He pressure drop"` -/
  HePressureDrop : ℚ
  /-- Models `"Channel diameter"` -/
  ChannelDiameter : ℚ
  /-- Models `"Channel length"` -/
  ChannelLength : ℚ
  /-- Models `"HEX1 length"` -/
  HEX1length : ℚ
  /-- Models `"HEX1 fin height"` -/
  HEX1finHeight : ℚ
  /-- Models `"HEX1 fin pitch"` -/
  HEX1finPitch : ℚ
  /-- Models `"HeII overfill"` -/
  HeIIoverfill : ℚ
  /-- Models `"He reservoir pressure"` -/
  HeReservoirPressure : ℚ
  /-- Models `"1K pot inlet temperature"` -/
  OneKPotInletTemperature : ℚ
  /-- Models `"He reservoir inlet temperature"` -/
  HeReservoirInletTemperature : ℚ
  /-- Models `"Isopure He flow"` -/
  IsopureHeFlow : ℚ
  /-- Models `"Isopure He inlet temperature"` -/
  IsopureHeInletTemperature : ℚ
  /-- Models `"Isopure He pressure"` -/
  IsopureHePressure : ℚ

/-- Models `equationSet(x, parameters)` (lines 162-177): the residual of the three
unknowns `x = (3He flow, 1K pot temperature, 4He temperature at HEX1)`.
`HEX1Temperature`"s warning log goes to the console, so only its first
component enters the residual. -/
def equationSet (he4 : HePak) (he3 : He3Pak) (boil : ℚ → ℚ → Option ℚ)
    (x : ℚ × ℚ × ℚ) (parameters : Parameters) : ℚ × ℚ × ℚ :=
  let heatLoad := parameters.BeamHeating + parameters.StaticHeat
    + HeCoolingLoad he4 parameters.IsopureHeFlow parameters.IsopureHePressure x.2.1 x.2.2
  let T_He3 := He3Temperature he3 x.1 parameters.He3PumpingSpeed
    parameters.PumpInletTemperature parameters.He3PressureDrop
  let flow := He3Flow he3 x.2.1 parameters.He3InletPressure T_He3 heatLoad
  let reservoirTemperature := he4.T_P_SV parameters.HeReservoirPressure
  let OneKPotFlow := OneKPotEvaporation he4 he3 x.1 parameters.He3InletPressure
    parameters.OneKPotInletTemperature parameters.IsopureHeFlow parameters.IsopureHePressure
    reservoirTemperature parameters.HeReservoirPressure parameters.OneKPotInletTemperature x.2.1
  let T_1Kpot := OneKPotTemperature he4 OneKPotFlow parameters.HePumpingSpeed
    parameters.PumpInletTemperature parameters.HePressureDrop
  let T_HEX1 := (HEX1Temperature boil T_He3 parameters.HEX1length parameters.ChannelDiameter
    parameters.HEX1finHeight parameters.HEX1finPitch heatLoad).1
  let T_He4 := He4Temperature T_HEX1 parameters.HEX1length parameters.ChannelDiameter heatLoad
  (flow - x.1, T_1Kpot - x.2.1, T_He4 - x.2.2)

/-- The outcome of `scipy.optimize.root`: the convergence flag `sol.success`
and the solution vector `sol.x`. -/
structure RootResult where
  success : Bool
  x : ℚ × ℚ × ℚ

/-- The Result Record built by `calcUCNSource` (lines 185-213), one field
per dictionary key. -/
structure Result where
  /-- Models `result["3He flow"]` -/
  He3flow : ℚ
  /-- Models `result["1K pot temperature"]` -/
  oneKpotTemperature : ℚ
  /-- Models `result["T_4He"]` -/
  T_4He : ℚ
  /-- Models `result["He reservoir temperature"]` -/
  heReservoirTemperature : ℚ
  /-- Models `result["1K pot flow"]` -/
  oneKpotFlow : ℚ
  /-- Models `result["He reservoir flow"]` -/
  heReservoirFlow : ℚ
  /-- Models `result["He consumption"]` -/
  heConsumption : ℚ
  /-- Models `result["20K shield flow"]` -/
  shieldFlow20 : ℚ
  /-- Models `result["100K shield flow"]` -/
  shieldFlow100 : ℚ
  /-- Models `result["Shield consumption"]` -/
  shieldConsumption : ℚ
  /-- Models `result["T_3He"]` -/
  T_3He : ℚ
  /-- Models `result["T_Cu"]` -/
  T_Cu : ℚ
  /-- Models `result["HeII vapor pressure"]` -/
  heIIvaporPressure : ℚ
  /-- Models `result["HeII pressure head"]` -/
  heIIpressureHead : ℚ
  /-- Models `result["T_HeII"]` -/
  T_HeII : ℚ

/-- Models `calcUCNSource(parameters)` (lines 180-214).  `rootSolver` models
`scipy.optimize.root(equationSet, x0=[0.002, 1.8, 1.], ...)`.  Returns
`none` (Python `return` with no value) when the solve did not converge,
together with the list of console messages printed by the call. -/
def calcUCNSource (he4 : HePak) (he3 : He3Pak) (boil : ℚ → ℚ → Option ℚ)
    (ivp : (ℚ → ℚ → ℚ) → ℚ → ℚ → ℚ)
    (rootSolver : ((ℚ × ℚ × ℚ) → ℚ × ℚ × ℚ) → (ℚ × ℚ × ℚ) → RootResult)
    (parameters : Parameters) : Option Result × List String :=
  let sol := rootSolver (fun x => equationSet he4 he3 boil x parameters) (0.002, 1.8, 1)
  if sol.success = false then (none, ["Solution did not converge!"])
  else
    let He3flow := sol.x.1
    let oneKpotTemperature := sol.x.2.1
    let T_4He := sol.x.2.2
    let heReservoirTemperature := he4.T_P_SV parameters.HeReservoirPressure
    let oneKpotFlow := OneKPotEvaporation he4 he3 He3flow parameters.He3InletPressure
      parameters.OneKPotInletTemperature parameters.IsopureHeFlow parameters.IsopureHePressure
      heReservoirTemperature parameters.HeReservoirPressure parameters.OneKPotInletTemperature
      oneKpotTemperature
    let heReservoirFlow := HeReservoirEvaporation he4 he3 He3flow parameters.He3InletPressure
      parameters.HeReservoirInletTemperature parameters.IsopureHeFlow parameters.IsopureHePressure
      parameters.IsopureHeInletTemperature parameters.HeReservoirPressure
    let heConsumption := (heReservoirFlow + oneKpotFlow) / he4.D_P_SL 101300 * 1000 * 3600
    let shieldFlow20 := (shieldFlow he4 parameters.IsopureHeFlow parameters.IsopureHePressure
      parameters.HeReservoirPressure).1
    let shieldFlow100 := (shieldFlow he4 parameters.IsopureHeFlow parameters.IsopureHePressure
      parameters.HeReservoirPressure).2
    let shieldConsumption := max shieldFlow20 shieldFlow100 / he4.D_P_SL 101300 * 1000 * 3600
    let T_3He := He3Temperature he3 He3flow parameters.He3PumpingSpeed
      parameters.PumpInletTemperature parameters.He3PressureDrop
    let heatLoad := parameters.BeamHeating + parameters.StaticHeat
      + HeCoolingLoad he4 parameters.IsopureHeFlow parameters.IsopureHePressure
        oneKpotTemperature T_4He
    let hex1 := HEX1Temperature boil T_3He parameters.HEX1length parameters.ChannelDiameter
      parameters.HEX1finHeight parameters.HEX1finPitch heatLoad
    let T_Cu := hex1.1
    if T_4He < he4.HeConst 3 then
      (some { He3flow := He3flow, oneKpotTemperature := oneKpotTemperature, T_4He := T_4He,
              heReservoirTemperature := heReservoirTemperature, oneKpotFlow := oneKpotFlow,
              heReservoirFlow := heReservoirFlow, heConsumption := heConsumption,
              shieldFlow20 := shieldFlow20, shieldFlow100 := shieldFlow100,
              shieldConsumption := shieldConsumption, T_3He := T_3He, T_Cu := T_Cu,
              heIIvaporPressure := 0, heIIpressureHead := 0, T_HeII := 0 },
       hex1.2 ++ ["T_4He outside HEPAK range!"])
    else
      let heIIvaporPressure := he4.P_T_SL T_4He
      let heIIpressureHead := he4.D_T_SL T_4He * 9.81 * parameters.HeIIoverfill
      let T_HeII := HeIItemperature he4 ivp parameters.ChannelLength T_4He
        (heIIvaporPressure + heIIpressureHead) parameters.BeamHeating parameters.ChannelDiameter
      (some { He3flow := He3flow, oneKpotTemperature := oneKpotTemperature, T_4He := T_4He,
              heReservoirTemperature := heReservoirTemperature, oneKpotFlow := oneKpotFlow,
              heReservoirFlow := heReservoirFlow, heConsumption := heConsumption,
              shieldFlow20 := shieldFlow20, shieldFlow100 := shieldFlow100,
              shieldConsumption := shieldConsumption, T_3He := T_3He, T_Cu := T_Cu,
              heIIvaporPressure := heIIvaporPressure, heIIpressureHead := heIIpressureHead,
              T_HeII := T_HeII },
       hex1.2)

/-- The sampled value of a swept parameter at step `j` (line 276):
`params[p]["range"][0] + float(j)/10.*(params[p]["range"][1] - params[p]["range"][0])`. -/
def sweepValue (rmin rmax : ℚ) (j : ℕ) : ℚ :=
  rmin + (j : ℚ) / 10 * (rmax - rmin)

/-- Models `res = calcUCNSource(params)` at one sweep point (line 279), with the
swept parameter overridden to `value` through `setValue` (the clone-and-
override of lines 261-263 and 278).  Only the returned record matters for
the sweep lists; the log goes to the console. -/
def sweepSolve (he4 : HePak) (he3 : He3Pak) (boil : ℚ → ℚ → Option ℚ)
    (ivp : (ℚ → ℚ → ℚ) → ℚ → ℚ → ℚ)
    (rootSolver : ((ℚ × ℚ × ℚ) → ℚ × ℚ × ℚ) → (ℚ × ℚ × ℚ) → RootResult)
    (params : Parameters) (setValue : Parameters → ℚ → Parameters) (value : ℚ) : Option Result :=
  (calcUCNSource he4 he3 boil ivp rootSolver (setValue params value)).1

/-- The ten accumulated plot series of the sweep loop (lines 265-274):
`x` and `y` through `y9`. -/
structure SweepData where
  x : List ℚ
  y : List ℚ
  y2 : List ℚ
  y3 : List ℚ
  y4 : List ℚ
  y5 : List ℚ
  y6 : List ℚ
  y7 : List ℚ
  y8 : List ℚ
  y9 : List ℚ

/-- The empty plot series before the inner sweep loop starts. -/
def SweepData.empty : SweepData := ⟨[], [], [], [], [], [], [], [], [], []⟩

/-- One iteration of the inner sweep loop (lines 275-290): sample the
parameter value, solve, and append to every series when (and only when)
a record was returned (`if res:`). -/
def sweepStep (he4 : HePak) (he3 : He3Pak) (boil : ℚ → ℚ → Option ℚ)
    (ivp : (ℚ → ℚ → ℚ) → ℚ → ℚ → ℚ)
    (rootSolver : ((ℚ × ℚ × ℚ) → ℚ × ℚ × ℚ) → (ℚ × ℚ × ℚ) → RootResult)
    (params : Parameters) (setValue : Parameters → ℚ → Parameters) (rmin rmax : ℚ)
    (acc : SweepData) (j : ℕ) : SweepData :=
  let value := sweepValue rmin rmax j
  match sweepSolve he4 he3 boil ivp rootSolver params setValue value with
  | none => acc
  | some res =>
    { x := acc.x ++ [value]
      y := acc.y ++ [res.heReservoirFlow * 1000]
      y2 := acc.y2 ++ [res.T_HeII]
      y3 := acc.y3 ++ [res.T_3He]
      y4 := acc.y4 ++ [res.T_4He]
      y5 := acc.y5 ++ [res.He3flow * 1000]
      y6 := acc.y6 ++ [res.oneKpotFlow * 1000]
      y7 := acc.y7 ++ [max res.shieldFlow20 res.shieldFlow100 * 1000]
      y8 := acc.y8 ++ [res.oneKpotTemperature]
      y9 := acc.y9 ++ [res.T_Cu] }

/-- The whole inner sweep loop `for j in range(11)` for one swept
parameter. -/
def sweep (he4 : HePak) (he3 : He3Pak) (boil : ℚ → ℚ → Option ℚ)
    (ivp : (ℚ → ℚ → ℚ) → ℚ → ℚ → ℚ)
    (rootSolver : ((ℚ × ℚ × ℚ) → ℚ × ℚ × ℚ) → (ℚ × ℚ × ℚ) → RootResult)
    (params : Parameters) (setValue : Parameters → ℚ → Parameters) (rmin rmax : ℚ) : SweepData :=
  (List.range 11).foldl (sweepStep he4 he3 boil ivp rootSolver params setValue rmin rmax)
    SweepData.empty

/-! Concrete oracle instances used to evaluate the theorems below on
explicit inputs.  They are arbitrary computable stand-ins for the external
libraries; no theorem about the program depends on their particular
values. -/

/-- A concrete helium-4 oracle: enthalpy equals temperature, all other
lookups trivial, lambda point at 2. -/
def exHe4 : HePak where
  HeConst := fun _ => 2
  H_PT := fun _ T => T
  T_P_SV := fun _ => 4
  T_P_SL := fun P => P
  latent_P_SL := fun _ => 1
  H_T_SV := fun _ => 0
  H_T_SL := fun _ => 1
  latent_T_SL := fun _ => 1
  D_P_SL := fun _ => 1
  P_T_SL := fun T => T
  D_T_SL := fun _ => 1
  k_PT := fun _ _ => 1

/-- A concrete helium-3 oracle. -/
def exHe3 : He3Pak where
  He3Density := fun _ _ => 1
  He3Prop := fun _ _ T => T
  He3SaturatedVaporProp := fun _ _ => 0
  He3SaturatedLiquidProp := fun _ _ => 1
  He3SaturatedTemperature := fun P => P

/-- A boiling-curve interpolator that is everywhere outside its domain
(always NaN). -/
def exBoilNone : ℚ → ℚ → Option ℚ := fun _ _ => none

/-- A boiling-curve interpolator returning a constant temperature
difference of one half. -/
def exBoilHalf : ℚ → ℚ → Option ℚ := fun _ _ => some (1 / 2)

/-- A concrete ODE-integrator stand-in (one explicit Euler step). -/
def exIvp : (ℚ → ℚ → ℚ) → ℚ → ℚ → ℚ := fun f x T0 => T0 + x * f 0 T0

/-- A root-finder stand-in that never converges. -/
def exSolverFail : ((ℚ × ℚ × ℚ) → ℚ × ℚ × ℚ) → (ℚ × ℚ × ℚ) → RootResult :=
  fun _ _ => ⟨false, (0, 0, 0)⟩

/-- A root-finder stand-in that reports success with root `(1, 1, 1)`. -/
def exSolverOne : ((ℚ × ℚ × ℚ) → ℚ × ℚ × ℚ) → (ℚ × ℚ × ℚ) → RootResult :=
  fun _ _ => ⟨true, (1, 1, 1)⟩

/-- A concrete parameter table with every value set to one. -/
def exParams : Parameters :=
  ⟨1, 1, 1, 1, 1, 1, 1, 1, 1, 1, 1, 1, 1, 1, 1, 1, 1, 1, 1, 1⟩

/-! Theorems. -/

/-- Claim C1, counterexample: the round trip
`HeCoolingFlow(HeCoolingLoad(flow, P, Tin, Tout), P, Tin, Tout)` does NOT
return `flow`: at `flow = 1`, `P = 1`, `Tin = 3`, `Tout = 4` (with `Tout`
above the lambda point of the concrete oracle) it returns `-1`, because
`HeCoolingLoad` takes a warm inlet to a cold outlet while `HeCoolingFlow`
takes a cold inlet to a warm outlet, so the enthalpy difference changes
sign between the two. -/
theorem HeCooling_roundTrip_counterexample :
    0 < (1 : ℚ) ∧ exHe4.HeConst 3 < 4 ∧
      HeCoolingFlow exHe4 (HeCoolingLoad exHe4 1 1 3 4) 1 3 4 ≠ 1 := by
  refine ⟨by norm_num, by norm_num [exHe4], ?_⟩
  norm_num [HeCoolingFlow, HeCoolingLoad, exHe4]

/-- Claim C1 (amended): whenever the outlet temperature is at least the
lambda point `HeConst 3` (so the clamp in `HeCoolingLoad` is the identity)
and the two enthalpies differ, the round trip with the SAME temperature
arguments returns the negation of the flow, and the round trip with the
inlet/outlet arguments swapped in `HeCoolingFlow` returns the flow
itself. -/
theorem HeCooling_roundTrip_neg (he4 : HePak) (flow pressure Tin Tout : ℚ)
    (hT : he4.HeConst 3 ≤ Tout)
    (hH : he4.H_PT pressure Tout ≠ he4.H_PT pressure Tin) :
    HeCoolingFlow he4 (HeCoolingLoad he4 flow pressure Tin Tout) pressure Tin Tout = -flow ∧
    HeCoolingFlow he4 (HeCoolingLoad he4 flow pressure Tin Tout) pressure Tout Tin = flow := by
  unfold HeCoolingFlow HeCoolingLoad
  simp only [max_eq_right hT]
  constructor
  · rw [div_eq_iff (sub_ne_zero.mpr hH)]; ring
  · rw [div_eq_iff (sub_ne_zero.mpr (Ne.symm hH))]

/-- Claim C1, witness for `HeCooling_roundTrip_neg` at concrete inputs. -/
theorem HeCooling_roundTrip_neg_witness :
    HeCoolingFlow exHe4 (HeCoolingLoad exHe4 1 1 3 4) 1 3 4 = -1 ∧
    HeCoolingFlow exHe4 (HeCoolingLoad exHe4 1 1 3 4) 1 4 3 = 1 :=
  HeCooling_roundTrip_neg exHe4 1 1 3 4 (by decide) (by decide)

/-- Claim C2: `He3CoolingLoad` returns the flow times (inlet enthalpy minus
outlet DENSITY) — the outlet term of the difference is the He-3 density at
the outlet state, not its enthalpy. -/
theorem He3CoolingLoad_outletDensity (he3 : He3Pak) (flow pressure Tin Tout : ℚ) :
    He3CoolingLoad he3 flow pressure Tin Tout
      = flow * (he3.He3Prop 6 (he3.He3Density pressure Tin) Tin
                 - he3.He3Density pressure Tout) := rfl

/-- Claim C5: with `heatLoad ≤ 0`, `HEX1Temperature` returns the bath
temperature unchanged (and prints nothing), for every geometry. -/
theorem HEX1Temperature_zero_load (boil : ℚ → ℚ → Option ℚ)
    (T_He3 HEX1length HEX1diameter finHeight finPitch heatLoad : ℚ)
    (h : heatLoad ≤ 0) :
    HEX1Temperature boil T_He3 HEX1length HEX1diameter finHeight finPitch heatLoad
      = (T_He3, []) := by
  unfold HEX1Temperature
  rw [if_pos h]

/-- Claim C5, witness: zero heat load at an arbitrary geometry. -/
theorem HEX1Temperature_zero_load_witness :
    HEX1Temperature exBoilNone 5 1 2 3 4 0 = (5, []) :=
  HEX1Temperature_zero_load exBoilNone 5 1 2 3 4 0 (by decide)

/-- Claim C6: with `heatLoad` exactly `0`, `HeIItemperature` returns the
boundary temperature without invoking the integrator, for every channel
length, pressure and diameter. -/
theorem HeIItemperature_zero_load (he4 : HePak) (ivp : (ℚ → ℚ → ℚ) → ℚ → ℚ → ℚ)
    (x T_low pressure channelDiameter : ℚ) :
    HeIItemperature he4 ivp x T_low pressure 0 channelDiameter = T_low := by
  unfold HeIItemperature
  rw [if_pos rfl]

/-- Claim C7: `OneKPotTemperature` evaluates at the clamped flow
`min(max(HeFlow, 0), 0.1)`: the result is unchanged when the input flow is
replaced by its clamped value, and the clamped value lies in `[0, 0.1]`. -/
theorem OneKPotTemperature_clamp (he4 : HePak)
    (HeFlow pumpingSpeed pumpInletTemperature pumpingPressureDrop : ℚ) :
    OneKPotTemperature he4 HeFlow pumpingSpeed pumpInletTemperature pumpingPressureDrop
      = OneKPotTemperature he4 (min (max HeFlow 0) 0.1) pumpingSpeed
          pumpInletTemperature pumpingPressureDrop ∧
    0 ≤ min (max HeFlow 0) (0.1 : ℚ) ∧ min (max HeFlow 0) (0.1 : ℚ) ≤ 0.1 := by
  have h0 : 0 ≤ min (max HeFlow 0) (0.1 : ℚ) :=
    le_min (le_max_right _ _) (by norm_num)
  have hc : max 0 (min HeFlow 0.1) = min (max HeFlow 0) (0.1 : ℚ) := by
    rw [max_min_distrib_left, max_comm 0 HeFlow]
    congr 1
    exact max_eq_right (by norm_num)
  refine ⟨?_, h0, min_le_right _ _⟩
  unfold OneKPotTemperature
  rw [hc, min_assoc, min_self, max_eq_right h0]

/-- Claim C9: for a positive heat load, when the boiling-curve query at the
bath temperature and the heat flux `heatLoad / area` (with `area` the
finned-tube surface of the source) is outside the valid domain (`none`,
i.e. NaN), `HEX1Temperature` returns the bath temperature unchanged and
logs the out-of-range warning; when the query succeeds it returns the bath
temperature plus the interpolated difference. -/
theorem HEX1Temperature_fallback (boil : ℚ → ℚ → Option ℚ)
    (T_He3 HEX1length HEX1diameter finHeight finPitch heatLoad area q : ℚ)
    (h : 0 < heatLoad)
    (harea : area = HEX1diameter * mathPi * HEX1length / 2
      + (HEX1diameter + 2 * finHeight) * mathPi * HEX1length / 2
      + ((HEX1diameter / 2 + finHeight) ^ 2 - (HEX1diameter / 2) ^ 2) * mathPi
          * (HEX1length / finPitch) * 2)
    (hq : q = heatLoad / area) :
    (boil T_He3 q = none →
      HEX1Temperature boil T_He3 HEX1length HEX1diameter finHeight finPitch heatLoad
        = (T_He3, ["He3 temperature outside valid boiling temperature range!"])) ∧
    (∀ dT : ℚ, boil T_He3 q = some dT →
      HEX1Temperature boil T_He3 HEX1length HEX1diameter finHeight finPitch heatLoad
        = (T_He3 + dT, [])) := by
  subst harea
  subst hq
  have hne : ¬ heatLoad ≤ 0 := not_le.mpr h
  constructor
  · intro hb
    simp only [HEX1Temperature, if_neg hne, hb]
  · intro dT hb
    simp only [HEX1Temperature, if_neg hne, hb]

/-- Claim C9, witness: a unit heat load on a unit fin-less geometry, once
with the always-NaN interpolator and once with the constant one. -/
theorem HEX1Temperature_fallback_witness :
    0 < (1 : ℚ) ∧
    HEX1Temperature exBoilNone 5 1 1 0 1 1
      = (5, ["He3 temperature outside valid boiling temperature range!"]) ∧
    HEX1Temperature exBoilHalf 5 1 1 0 1 1 = (5 + 1 / 2, []) :=
  ⟨by norm_num,
   (HEX1Temperature_fallback exBoilNone 5 1 1 0 1 1 _ _ (by norm_num) rfl rfl).1 rfl,
   (HEX1Temperature_fallback exBoilHalf 5 1 1 0 1 1 _ _ (by norm_num) rfl rfl).2 (1 / 2) rfl⟩

/-- Claim C10: the early return of `HeIItemperature` tests exact equality
with zero, so for a strictly negative heat load the function still invokes
the ODE integrator on the Gorter-Mellink integrand; on the valid branch
(temperature at or above the lambda point, positive conductivity) that
integrand equals `(heatLoad/A)^3 / k` and is strictly negative (the cubed
flux term keeps the sign of the heat load).  By contrast the early return
of `HEX1Temperature` covers every `heatLoad ≤ 0`. -/
theorem HeIItemperature_negative_load (he4 : HePak) (ivp : (ℚ → ℚ → ℚ) → ℚ → ℚ → ℚ)
    (x T_low pressure heatLoad channelDiameter : ℚ)
    (hneg : heatLoad < 0) (hd : 0 < channelDiameter) :
    HeIItemperature he4 ivp x T_low pressure heatLoad channelDiameter
      = ivp (dTdx he4 pressure heatLoad (mathPi * channelDiameter ^ 2 / 4)) x T_low ∧
    (∀ x0 T : ℚ, ¬ T < he4.HeConst 3 → 0 < he4.k_PT pressure T →
      dTdx he4 pressure heatLoad (mathPi * channelDiameter ^ 2 / 4) x0 T
        = (heatLoad / (mathPi * channelDiameter ^ 2 / 4)) ^ 3 / he4.k_PT pressure T ∧
      dTdx he4 pressure heatLoad (mathPi * channelDiameter ^ 2 / 4) x0 T < 0) ∧
    (∀ (boil : ℚ → ℚ → Option ℚ) (T_He3 HEX1length HEX1diameter finHeight finPitch : ℚ),
      (HEX1Temperature boil T_He3 HEX1length HEX1diameter finHeight finPitch heatLoad).1
        = T_He3) := by
  have hA : 0 < mathPi * channelDiameter ^ 2 / 4 := by
    have hpi : 0 < mathPi := by norm_num [mathPi]
    positivity
  refine ⟨?_, ?_, ?_⟩
  · unfold HeIItemperature
    rw [if_neg (ne_of_lt hneg)]
  · intro x0 T hT hk
    have hval : dTdx he4 pressure heatLoad (mathPi * channelDiameter ^ 2 / 4) x0 T
        = (heatLoad / (mathPi * channelDiameter ^ 2 / 4)) ^ 3 / he4.k_PT pressure T := by
      simp only [dTdx, if_neg hT, if_pos hk, gt_iff_lt]
    refine ⟨hval, ?_⟩
    rw [hval]
    exact div_neg_of_neg_of_pos
      (Odd.pow_neg ⟨1, by norm_num⟩ (div_neg_of_neg_of_pos hneg hA)) hk
  · intro boil T_He3 HEX1length HEX1diameter finHeight finPitch
    unfold HEX1Temperature
    rw [if_pos (le_of_lt hneg)]

/-- Claim C10, witness for `HeIItemperature_negative_load` at a negative
unit heat load. -/
theorem HeIItemperature_negative_load_witness :
    HeIItemperature exHe4 exIvp 1 5 1 (-1) 2
      = exIvp (dTdx exHe4 1 (-1) (mathPi * 2 ^ 2 / 4)) 1 5 ∧
    dTdx exHe4 1 (-1) (mathPi * 2 ^ 2 / 4) 0 3 < 0 ∧
    (HEX1Temperature exBoilHalf 7 1 1 0 1 (-1)).1 = 7 := by
  have h := HeIItemperature_negative_load exHe4 exIvp 1 5 1 (-1) 2
    (by norm_num) (by norm_num)
  exact ⟨h.1, (h.2.1 0 3 (by decide) (by decide)).2, h.2.2 exBoilHalf 7 1 1 0 1⟩

/-- Helper: the `x` series accumulated by folding `sweepStep` over any
list of step indices is the start value followed by the sampled values of
exactly the converged steps, in order. -/
theorem sweep_x_spec (he4 : HePak) (he3 : He3Pak) (boil : ℚ → ℚ → Option ℚ)
    (ivp : (ℚ → ℚ → ℚ) → ℚ → ℚ → ℚ)
    (rootSolver : ((ℚ × ℚ × ℚ) → ℚ × ℚ × ℚ) → (ℚ × ℚ × ℚ) → RootResult)
    (params : Parameters) (setValue : Parameters → ℚ → Parameters) (rmin rmax : ℚ)
    (js : List ℕ) (acc : SweepData) :
    ((js.foldl (sweepStep he4 he3 boil ivp rootSolver params setValue rmin rmax) acc)).x
      = acc.x ++ (js.filter (fun j =>
          (sweepSolve he4 he3 boil ivp rootSolver params setValue
            (sweepValue rmin rmax j)).isSome)).map (sweepValue rmin rmax) := by
  induction js generalizing acc with
  | nil => simp
  | cons j js ih =>
    simp only [List.foldl_cons, List.filter_cons]
    cases h : sweepSolve he4 he3 boil ivp rootSolver params setValue (sweepValue rmin rmax j) with
    | none =>
      rw [ih]
      simp [sweepStep, h]
    | some res =>
      rw [ih]
      simp [sweepStep, h]

/-- Helper: the `y` series (reservoir flow in grams per second) accumulated
by folding `sweepStep` is the start value followed by the extracted value
of exactly the converged steps, in order. -/
theorem sweep_y_spec (he4 : HePak) (he3 : He3Pak) (boil : ℚ → ℚ → Option ℚ)
    (ivp : (ℚ → ℚ → ℚ) → ℚ → ℚ → ℚ)
    (rootSolver : ((ℚ × ℚ × ℚ) → ℚ × ℚ × ℚ) → (ℚ × ℚ × ℚ) → RootResult)
    (params : Parameters) (setValue : Parameters → ℚ → Parameters) (rmin rmax : ℚ)
    (js : List ℕ) (acc : SweepData) :
    ((js.foldl (sweepStep he4 he3 boil ivp rootSolver params setValue rmin rmax) acc)).y
      = acc.y ++ js.filterMap (fun j =>
          (sweepSolve he4 he3 boil ivp rootSolver params setValue
            (sweepValue rmin rmax j)).map (fun res => res.heReservoirFlow * 1000)) := by
  induction js generalizing acc with
  | nil => simp
  | cons j js ih =>
    simp only [List.foldl_cons, List.filterMap_cons]
    cases h : sweepSolve he4 he3 boil ivp rootSolver params setValue (sweepValue rmin rmax j) with
    | none =>
      rw [ih]
      simp [sweepStep, h]
    | some res =>
      rw [ih]
      simp [sweepStep, h]

/-- Claim C3: when the root finder does not converge, `calcUCNSource`
yields no record (`none`), reporting the failure; when it converges a
record is produced; and the sweep driver adds nothing for a non-converged
sweep point while appending, across the whole eleven-point loop, exactly
the converged points. -/
theorem calcUCNSource_convergence_contract :
    (∀ (he4 : HePak) (he3 : He3Pak) (boil : ℚ → ℚ → Option ℚ)
       (ivp : (ℚ → ℚ → ℚ) → ℚ → ℚ → ℚ)
       (rootSolver : ((ℚ × ℚ × ℚ) → ℚ × ℚ × ℚ) → (ℚ × ℚ × ℚ) → RootResult)
       (parameters : Parameters),
      (rootSolver (fun x => equationSet he4 he3 boil x parameters) (0.002, 1.8, 1)).success
          = false →
      calcUCNSource he4 he3 boil ivp rootSolver parameters
        = (none, ["Solution did not converge!"])) ∧
    (∀ (he4 : HePak) (he3 : He3Pak) (boil : ℚ → ℚ → Option ℚ)
       (ivp : (ℚ → ℚ → ℚ) → ℚ → ℚ → ℚ)
       (rootSolver : ((ℚ × ℚ × ℚ) → ℚ × ℚ × ℚ) → (ℚ × ℚ × ℚ) → RootResult)
       (parameters : Parameters),
      (rootSolver (fun x => equationSet he4 he3 boil x parameters) (0.002, 1.8, 1)).success
          = true →
      ∃ (r : Result) (log : List String),
        calcUCNSource he4 he3 boil ivp rootSolver parameters = (some r, log)) ∧
    (∀ (he4 : HePak) (he3 : He3Pak) (boil : ℚ → ℚ → Option ℚ)
       (ivp : (ℚ → ℚ → ℚ) → ℚ → ℚ → ℚ)
       (rootSolver : ((ℚ × ℚ × ℚ) → ℚ × ℚ × ℚ) → (ℚ × ℚ × ℚ) → RootResult)
       (params : Parameters) (setValue : Parameters → ℚ → Parameters) (rmin rmax : ℚ)
       (acc : SweepData) (j : ℕ),
      sweepSolve he4 he3 boil ivp rootSolver params setValue (sweepValue rmin rmax j) = none →
      sweepStep he4 he3 boil ivp rootSolver params setValue rmin rmax acc j = acc) ∧
    (∀ (he4 : HePak) (he3 : He3Pak) (boil : ℚ → ℚ → Option ℚ)
       (ivp : (ℚ → ℚ → ℚ) → ℚ → ℚ → ℚ)
       (rootSolver : ((ℚ × ℚ × ℚ) → ℚ × ℚ × ℚ) → (ℚ × ℚ × ℚ) → RootResult)
       (params : Parameters) (setValue : Parameters → ℚ → Parameters) (rmin rmax : ℚ),
      (sweep he4 he3 boil ivp rootSolver params setValue rmin rmax).x
        = ((List.range 11).filter (fun j =>
            (sweepSolve he4 he3 boil ivp rootSolver params setValue
              (sweepValue rmin rmax j)).isSome)).map (sweepValue rmin rmax)) := by
  refine ⟨?_, ?_, ?_, ?_⟩
  · intro he4 he3 boil ivp rootSolver parameters hs
    simp only [calcUCNSource]
    rw [if_pos hs]
  · intro he4 he3 boil ivp rootSolver parameters hs
    simp only [calcUCNSource]
    rw [if_neg (by simp [hs])]
    split
    · exact ⟨_, _, rfl⟩
    · exact ⟨_, _, rfl⟩
  · intro he4 he3 boil ivp rootSolver params setValue rmin rmax acc j h
    simp only [sweepStep, h]
  · intro he4 he3 boil ivp rootSolver params setValue rmin rmax
    rw [sweep, sweep_x_spec]
    rfl

/-- Claim C3, witness: with a never-converging root finder the solve
returns nothing, with a converging one it returns a record, a failed sweep
point leaves the series untouched, and the failed sweep produces an empty
`x` series after visiting all eleven points. -/
theorem calcUCNSource_convergence_contract_witness :
    calcUCNSource exHe4 exHe3 exBoilNone exIvp exSolverFail exParams
      = (none, ["Solution did not converge!"]) ∧
    (∃ (r : Result) (log : List String),
      calcUCNSource exHe4 exHe3 exBoilNone exIvp exSolverOne exParams = (some r, log)) ∧
    sweepStep exHe4 exHe3 exBoilNone exIvp exSolverFail exParams (fun p _ => p) 0 1
      SweepData.empty 0 = SweepData.empty ∧
    (sweep exHe4 exHe3 exBoilNone exIvp exSolverFail exParams (fun p _ => p) 0 1).x = [] := by
  have h := calcUCNSource_convergence_contract
  refine ⟨h.1 exHe4 exHe3 exBoilNone exIvp exSolverFail exParams rfl,
          h.2.1 exHe4 exHe3 exBoilNone exIvp exSolverOne exParams rfl,
          h.2.2.1 exHe4 exHe3 exBoilNone exIvp exSolverFail exParams (fun p _ => p) 0 1
            SweepData.empty 0 rfl, ?_⟩
  rw [h.2.2.2 exHe4 exHe3 exBoilNone exIvp exSolverFail exParams (fun p _ => p) 0 1]
  rfl

/-- Claim C4: when the root finder converges but the resolved He-4
interface temperature `sol.x[2]` lies below the lambda point `HeConst 3`,
`calcUCNSource` still returns a record; its `HeII vapor pressure`,
`HeII pressure head` and `T_HeII` fields are exactly zero and the
out-of-range diagnostic is in the printed log. -/
theorem calcUCNSource_lambda_branch_zero (he4 : HePak) (he3 : He3Pak)
    (boil : ℚ → ℚ → Option ℚ) (ivp : (ℚ → ℚ → ℚ) → ℚ → ℚ → ℚ)
    (rootSolver : ((ℚ × ℚ × ℚ) → ℚ × ℚ × ℚ) → (ℚ × ℚ × ℚ) → RootResult)
    (parameters : Parameters)
    (hs : (rootSolver (fun x => equationSet he4 he3 boil x parameters) (0.002, 1.8, 1)).success
        = true)
    (hT : (rootSolver (fun x => equationSet he4 he3 boil x parameters) (0.002, 1.8, 1)).x.2.2
        < he4.HeConst 3) :
    ∃ (r : Result) (log : List String),
      calcUCNSource he4 he3 boil ivp rootSolver parameters = (some r, log) ∧
      r.T_4He = (rootSolver (fun x => equationSet he4 he3 boil x parameters)
                  (0.002, 1.8, 1)).x.2.2 ∧
      r.heIIvaporPressure = 0 ∧ r.heIIpressureHead = 0 ∧ r.T_HeII = 0 ∧
      "T_4He outside HEPAK range!" ∈ log := by
  simp only [calcUCNSource]
  rw [if_neg (by simp [hs]), if_pos hT]
  exact ⟨_, _, rfl, rfl, rfl, rfl, rfl, by simp⟩

/-- Claim C4, witness: a converging solver whose root has He-4 temperature
one, below the concrete lambda point two. -/
theorem calcUCNSource_lambda_branch_zero_witness :
    (exSolverOne (fun x => equationSet exHe4 exHe3 exBoilNone x exParams)
        (0.002, 1.8, 1)).success = true ∧
    (exSolverOne (fun x => equationSet exHe4 exHe3 exBoilNone x exParams)
        (0.002, 1.8, 1)).x.2.2 < exHe4.HeConst 3 ∧
    ∃ (r : Result) (log : List String),
      calcUCNSource exHe4 exHe3 exBoilNone exIvp exSolverOne exParams = (some r, log) ∧
      r.T_4He = (exSolverOne (fun x => equationSet exHe4 exHe3 exBoilNone x exParams)
                  (0.002, 1.8, 1)).x.2.2 ∧
      r.heIIvaporPressure = 0 ∧ r.heIIpressureHead = 0 ∧ r.T_HeII = 0 ∧
      "T_4He outside HEPAK range!" ∈ log :=
  ⟨rfl, by decide,
   calcUCNSource_lambda_branch_zero exHe4 exHe3 exBoilNone exIvp exSolverOne exParams
     rfl (by decide)⟩

/-- Claim C8: the eleven sampled values of a swept parameter are exactly
`min + (j/10) * (max - min)` for `j = 0, ..., 10` — they start at the range
minimum, end at the range maximum and advance in equal steps — and the
plotted `x` and `y` series consist of exactly the converged sweep points:
a point where the solve returns nothing contributes no entry. -/
theorem sweep_sampling :
    (∀ rmin rmax : ℚ, sweepValue rmin rmax 0 = rmin ∧ sweepValue rmin rmax 10 = rmax) ∧
    (∀ (rmin rmax : ℚ) (j : ℕ),
      sweepValue rmin rmax (j + 1) - sweepValue rmin rmax j = (rmax - rmin) / 10) ∧
    (∀ (he4 : HePak) (he3 : He3Pak) (boil : ℚ → ℚ → Option ℚ)
       (ivp : (ℚ → ℚ → ℚ) → ℚ → ℚ → ℚ)
       (rootSolver : ((ℚ × ℚ × ℚ) → ℚ × ℚ × ℚ) → (ℚ × ℚ × ℚ) → RootResult)
       (params : Parameters) (setValue : Parameters → ℚ → Parameters) (rmin rmax : ℚ),
      (sweep he4 he3 boil ivp rootSolver params setValue rmin rmax).x
        = ((List.range 11).filter (fun j =>
            (sweepSolve he4 he3 boil ivp rootSolver params setValue
              (sweepValue rmin rmax j)).isSome)).map (sweepValue rmin rmax) ∧
      (sweep he4 he3 boil ivp rootSolver params setValue rmin rmax).y
        = (List.range 11).filterMap (fun j =>
            (sweepSolve he4 he3 boil ivp rootSolver params setValue
              (sweepValue rmin rmax j)).map (fun res => res.heReservoirFlow * 1000))) := by
  refine ⟨?_, ?_, ?_⟩
  · intro rmin rmax
    constructor
    · simp [sweepValue]
    · simp only [sweepValue]
      push_cast
      ring
  · intro rmin rmax j
    simp only [sweepValue]
    push_cast
    ring
  · intro he4 he3 boil ivp rootSolver params setValue rmin rmax
    constructor
    · rw [sweep, sweep_x_spec]
      rfl
    · rw [sweep, sweep_y_spec]
      rfl

end UCNsource
